import Mathlib

/-!
# Verification of the pyfy authenticated request dispatch engine

Shallow embedding of the credential models (`pyfy/creds.py`), the shared
client wiring (`pyfy/base_client.py`), the blocking dispatcher
(`pyfy/sync_client.py`) and the asynchronous dispatcher
(`pyfy/async_client.py`), together with theorems settling the behavioural
claims about the dispatch engine.

Modelling conventions:
* `datetime.datetime` values are modelled as `Int` instants; the frozen
  clock `utcnow` is part of the client state (real time does not advance
  during a modelled run).
* Python `None`-able attributes are `Option` values; Python truthiness of
  strings (`None` and `""` are falsy) is `truthyStr`.
* Python exceptions are the `PyError` inductive; `_TooManyRequests` is a
  subclass of `ApiError` in the source, captured by `PyError.isApiError`.
* The HTTP transport is a script: send number `k` (counted in
  `World.sends`) receives `transport k`.  Network effects and refresh
  invocations are recorded in `World`.
* Functions that loop in Python run on explicit fuel; exhausted fuel is
  the `Res.diverge` outcome (the run neither returned nor raised within
  the given depth).
-/

namespace Pyfy

/-- Python runtime values at the one point where the source compares
values of different runtime types (`Spotify._send_request` /
`AsyncSpotify._handle_send_requests` compare a header *dict* against a
header *string*).  Only the shapes that actually occur there are
represented. -/
inductive PyVal where
  | str (s : String)
  | dict (entries : List (String × String))
  deriving DecidableEq, Repr

/-- Python `==` on `PyVal`: strings compare by content, dicts by content,
and values of different runtime types are never equal (CPython returns
`NotImplemented` from both sides and falls back to identity, hence
`False` for distinct objects). -/
def pyEq : PyVal → PyVal → Bool
  | .str a, .str b => a == b
  | .dict a, .dict b => a == b
  | _, _ => false

/-- Python truthiness of an optional string: `None` and `""` are falsy. -/
def truthyStr : Option String → Bool
  | none => false
  | some s => !s.isEmpty

/-- Python `str(...)` / `"{}".format(...)` rendering of an optional string:
`None` renders as `"None"`. -/
def formatOptStr : Option String → String
  | none => "None"
  | some s => s

/-! ## Credential models (`pyfy/creds.py`) -/

/-- `TOKEN_EXPIRED_MSG` from `pyfy/base_client.py`. -/
def TOKEN_EXPIRED_MSG : String := "The access token expired"

/-- `OAUTH_TOKEN_URL` from `pyfy/base_client.py`. -/
def OAUTH_TOKEN_URL : String := "https://accounts.spotify.com/api/token"

/-- `ALL_SCOPES` from `pyfy/creds.py` (the default scope list of
`ClientCreds`). -/
def ALL_SCOPES : List String :=
  ["streaming", "app-remote-control", "user-follow-modify",
   "user-follow-read", "playlist-read-private", "playlist-modify-private",
   "playlist-read-collaborative", "playlist-modify-public",
   "user-modify-playback-state", "user-read-playback-state",
   "user-read-currently-playing", "user-read-private",
   "user-read-birthdate", "user-read-email", "user-library-read",
   "user-library-modify", "user-top-read", "user-read-recently-played"]

/-- `pyfy.creds.UserCreds` restricted to the fields the dispatch engine
reads (`access_token`, `refresh_token`, `expiry`, `scopes`).  The
provider-profile mirror fields (`birthdate`, `country`, ...) and the
deprecated `state` field are never consulted by the dispatcher and are
omitted. -/
structure UserCreds where
  access_token : Option String
  refresh_token : Option String
  expiry : Option Int
  scopes : List String
  deriving DecidableEq, Repr

/-- `UserCreds.__init__`: every argument defaults to `None`; `scopes`
defaults to the empty list (`scopes or []`). -/
def UserCreds.init (access_token refresh_token : Option String)
    (scopes : Option (List String)) (expiry : Option Int) : UserCreds :=
  { access_token := access_token
    refresh_token := refresh_token
    expiry := expiry
    scopes := scopes.getD [] }

/-- `pyfy.creds.ClientCreds`.  `show_dialog` is `Option Bool` because the
attribute can hold Python `None` (e.g. `ClientCreds(show_dialog=None)`),
which `is_oauth_ready` explicitly tests for. -/
structure ClientCreds where
  client_id : Option String
  client_secret : Option String
  scopes : List String
  redirect_uri : Option String
  show_dialog : Option Bool
  access_token : Option String
  expiry : Option Int
  deriving DecidableEq, Repr

/-- `ClientCreds.__init__`: `redirect_uri` defaults to
`"http://localhost"` and `scopes` to `ALL_SCOPES` when `None` is passed;
`access_token` and `expiry` start as `None`. -/
def ClientCreds.init (client_id client_secret : Option String)
    (scopes : Option (List String)) (redirect_uri : Option String)
    (show_dialog : Option Bool) : ClientCreds :=
  { client_id := client_id
    client_secret := client_secret
    scopes := scopes.getD ALL_SCOPES
    redirect_uri := some (redirect_uri.getD "http://localhost")
    show_dialog := show_dialog
    access_token := none
    expiry := none }

/-- `_Creds.access_is_expired`: `expiry <= datetime.datetime.utcnow()`
when `expiry` is a datetime, `None` otherwise.  The property only reads
`self.expiry` and the clock. -/
def access_is_expired (expiry : Option Int) (utcnow : Int) : Option Bool :=
  match expiry with
  | some e => some (decide (e ≤ utcnow))
  | none => none

/-- `ClientCreds.is_oauth_ready`: `client_id and redirect_uri and scopes
and show_dialog is not None`. -/
def ClientCreds.is_oauth_ready (cc : ClientCreds) : Bool :=
  truthyStr cc.client_id && truthyStr cc.redirect_uri &&
    !cc.scopes.isEmpty && cc.show_dialog.isSome

/-! ## Errors (`pyfy/excs.py` and Python built-ins) -/

/-- A JSON body as the dispatcher reads it: only the keys the dispatch
engine ever looks up are represented.  `error` is the provider error
object (with its `message` key), an absent key is `none`. -/
structure JsonBody where
  errorMessage : Option (Option String) := none
  error_description : Option String := none
  access_token : Option String := none
  scope : Option String := none
  expires_in : Option Int := none
  refresh_token : Option String := none
  deriving DecidableEq, Repr

/-- Error messages as the source passes them: a string literal or a
field, the whole JSON body (`... or res.json()`), or Python `None`. -/
inductive ErrMsg where
  | str (s : String)
  | json (j : JsonBody)
  | noneMsg
  deriving DecidableEq, Repr

/-- Python exceptions raised by the dispatch engine.  `tooManyRequests`
models `pyfy.excs._TooManyRequests`, a subclass of `ApiError`;
`attributeError` / `keyError` / `valueError` / `timeoutError` model the
built-ins the source can raise or re-raise. -/
inductive PyError where
  | apiError (msg : ErrMsg)
  | authError (msg : ErrMsg)
  | tooManyRequests (msg : ErrMsg)
  | runtimeError (msg : String)
  | valueError (msg : String)
  | attributeError
  | keyError
  | indexError
  | timeoutError
  deriving DecidableEq, Repr

/-- `isinstance(e, ApiError)`: `_TooManyRequests` subclasses `ApiError`. -/
def PyError.isApiError : PyError → Bool
  | .apiError _ => true
  | .tooManyRequests _ => true
  | _ => false

/-- `isinstance(e, AuthError)`. -/
def PyError.isAuthError : PyError → Bool
  | .authError _ => true
  | _ => false

/-- `isinstance(e, _TooManyRequests)`: the rate-limit sub-kind of
`ApiError`.  Only `async_client.py` ever raises it; the blocking client
has no rate-limit kind. -/
def PyError.isRateLimited : PyError → Bool
  | .tooManyRequests _ => true
  | _ => false

/-- The exception tuple of `backoff.on_exception` in
`AsyncSpotify._send_request_with_backoff`:
`(_TooManyRequests, TimeoutError, ClientConnectionError)`. -/
def PyError.isBackoffRetryable : PyError → Bool
  | .tooManyRequests _ => true
  | .timeoutError => true
  | _ => false

/-! ## Requests, responses and the scripted transport -/

/-- String-keyed dict lookup (`d[k]` would raise `KeyError` when absent;
callers model that explicitly). -/
def dictGet (d : List (String × String)) (k : String) : Option String :=
  (d.find? (fun p => p.1 == k)).map (·.2)

/-- Python `dict.update`: existing keys are overwritten in place, new
keys are appended. -/
def dictUpdate (d upd : List (String × String)) : List (String × String) :=
  upd.foldl
    (fun acc kv =>
      if acc.any (fun p => p.1 == kv.1) then
        acc.map (fun p => if p.1 == kv.1 then kv else p)
      else acc ++ [kv])
    d

/-- A request descriptor (`requests.Request` in the sync client, the
`_Dict` request model in the async client): method, url, headers, form
data. -/
structure Request where
  method : String
  url : String
  headers : List (String × String)
  data : List (String × String) := []
  deriving DecidableEq, Repr

/-- One scripted transport reaction to a send: an HTTP response with a
status and JSON body, or a transport-level timeout exception. -/
inductive ScriptedResponse where
  | http (status : Nat) (json : JsonBody)
  | timeout
  deriving DecidableEq, Repr

/-- The decoded body of a response (`res.json()` in the sync client, the
pre-awaited `res.json` attribute in the async client). -/
def ScriptedResponse.jsonOf : ScriptedResponse → JsonBody
  | .http _ j => j
  | .timeout => {}

/-! ## Client state (`_BaseClient` attributes) -/

/-- The object stored in `self._caller`: the `self._user_creds` object,
the `self.client_creds` object, or Python `None`.  The source decides the
refresh strategy by *identity* (`is`) against these objects. -/
inductive CallerId where
  | userObj
  | clientObj
  | noneObj
  deriving DecidableEq, Repr

/-- The dispatch-relevant attributes of a `Spotify` / `AsyncSpotify`
client: both credential models, the `_caller` reference, the frozen
clock, and the retry bound `max_retries`. -/
structure ClientState where
  user_creds : Option UserCreds
  client_creds : ClientCreds
  caller : CallerId
  utcnow : Int
  max_retries : Nat
  deriving DecidableEq, Repr

/-- `self._caller is self.user_creds`.  When `_caller` holds `None` and
`_user_creds` is also `None`, the identity test is `None is None`, which
is true. -/
def callerIsUserCreds (s : ClientState) : Bool :=
  match s.caller with
  | .userObj => true
  | .noneObj => s.user_creds.isNone
  | .clientObj => false

/-- `self._caller is self.client_creds` (the client credentials object
always exists: the constructor default is `ClientCreds()`). -/
def callerIsClientCreds (s : ClientState) : Bool :=
  s.caller == .clientObj

/-- `getattr(self._caller, "access_is_expired", None)` in
`_send_authorized_request(s)`: `None` when the caller is `None`
(`getattr` default), otherwise the caller object's property. -/
def callerAccessIsExpired (s : ClientState) : Option Bool :=
  match s.caller with
  | .noneObj => none
  | .userObj =>
    match s.user_creds with
    | none => none
    | some uc => access_is_expired uc.expiry s.utcnow
  | .clientObj => access_is_expired s.client_creds.expiry s.utcnow

/-- `_BaseClient._access_authorization_header`: a bearer header dict
built from the active caller's access token; raises `ApiError` when no
caller is set. -/
def accessAuthorizationHeader (s : ClientState) :
    Except PyError (List (String × String)) :=
  let noCallerMsg := "Call Requires an authorized caller, either client or user. Call either authorize_client_creds() or set a user creds object."
  match s.caller with
  | .noneObj => .error (.apiError (.str noCallerMsg))
  | .userObj =>
    match s.user_creds with
    | none => .error (.apiError (.str noCallerMsg))
    | some uc => .ok [("Authorization", "Bearer " ++ formatOptStr uc.access_token)]
  | .clientObj =>
    .ok [("Authorization", "Bearer " ++ formatOptStr s.client_creds.access_token)]

/-! ## Base-client request preparation (`pyfy/base_client.py`) -/

/-- The standard base64 alphabet, for `base64.b64encode`. -/
def base64Alphabet : String :=
  "ABCDEFGHIJKLMNOPQRSTUVWXYZabcdefghijklmnopqrstuvwxyz0123456789+/"

/-- One base64 digit. -/
def base64Digit (n : Nat) : Char :=
  base64Alphabet.toList.getD n 'A'

/-- UTF-8 encoding of one code point (the byte layout of
`str.encode()`). -/
def utf8Bytes (c : Char) : List Nat :=
  let n := c.toNat
  if n < 0x80 then [n]
  else if n < 0x800 then [0xC0 + n / 64, 0x80 + n % 64]
  else if n < 0x10000 then
    [0xE0 + n / 4096, 0x80 + n / 64 % 64, 0x80 + n % 64]
  else
    [0xF0 + n / 262144, 0x80 + n / 4096 % 64, 0x80 + n / 64 % 64, 0x80 + n % 64]

/-- `s.encode()`: the UTF-8 bytes of a string. -/
def strBytes (s : String) : List Nat :=
  s.toList.foldr (fun c acc => utf8Bytes c ++ acc) []

/-- `base64.b64encode` over a byte list (standard alphabet, `=` padding). -/
def b64EncodeBytes : List Nat → String
  | [] => ""
  | [a] =>
    String.mk [base64Digit (a / 4), base64Digit (a % 4 * 16)] ++ "=="
  | [a, b] =>
    String.mk [base64Digit (a / 4), base64Digit (a % 4 * 16 + b / 16),
      base64Digit (b % 16 * 4)] ++ "="
  | a :: b :: c :: rest =>
    String.mk [base64Digit (a / 4), base64Digit (a % 4 * 16 + b / 16),
      base64Digit (b % 16 * 4 + c / 64), base64Digit (c % 64)]
      ++ b64EncodeBytes rest

/-- `base64.b64encode(s.encode()).decode()` of a UTF-8 string. -/
def b64Encode (s : String) : String :=
  b64EncodeBytes (strBytes s)

/-- Python `s.split(" ")`: splits on every single space, keeping empty
pieces (`"".split(" ") == [""]`). -/
def splitSpaceChars : List Char → List (List Char)
  | [] => [[]]
  | c :: rest =>
    let r := splitSpaceChars rest
    if c = ' ' then [] :: r
    else
      match r with
      | [] => [[c]]
      | g :: gs => (c :: g) :: gs

/-- Python `s.split(" ")` on strings. -/
def pySplitSpace (s : String) : List String :=
  (splitSpaceChars s.toList).map (fun cs => String.mk cs)

/-- `_BaseClient._client_authorization_header`: basic-auth header from
`client_id:client_secret`; raises `AttributeError` when either is
falsy. -/
def clientAuthorizationHeader (cc : ClientCreds) :
    Except PyError (List (String × String)) :=
  if truthyStr cc.client_id && truthyStr cc.client_secret then
    .ok [("Authorization",
      "Basic " ++ b64Encode (formatOptStr cc.client_id ++ ":" ++ formatOptStr cc.client_secret))]
  else
    .error .attributeError

/-- `_BaseClient._form_url_encoded_type_header`. -/
def formUrlEncodedTypeHeader : List (String × String) :=
  [("Content-Type", "application/x-www-form-urlencoded")]

/-- `_BaseClient._prep_refresh_user_token`: raises `AuthError` when the
user credential has no (truthy) refresh token, *before* any request is
built or sent; otherwise builds the POST to the token endpoint.  Reading
`self.user_creds.refresh_token` when `user_creds` is `None` is an
`AttributeError`. -/
def prepRefreshUserToken (s : ClientState) : Except PyError Request :=
  match s.user_creds with
  | none => .error .attributeError
  | some uc =>
    if !truthyStr uc.refresh_token then
      .error (.authError
        (.str "Access token expired and couldn't find a refresh token to refresh it"))
    else
      match clientAuthorizationHeader s.client_creds with
      | .error e => .error e
      | .ok authHdr =>
        .ok { method := "POST"
              url := OAUTH_TOKEN_URL
              headers := authHdr ++ formUrlEncodedTypeHeader
              data := [("grant_type", "refresh_token"),
                       ("refresh_token", formatOptStr uc.refresh_token)] }

/-- `_BaseClient._prep_authorize_client_creds` with no `client_creds`
argument: raises `AuthError` when the stored client credentials lack a
truthy id or secret, otherwise builds the client-credentials POST. -/
def prepAuthorizeClientCreds (cc : ClientCreds) : Except PyError Request :=
  if !truthyStr cc.client_id || !truthyStr cc.client_secret then
    .error (.authError (.str "No client credentials set"))
  else
    match clientAuthorizationHeader cc with
    | .error e => .error e
    | .ok authHdr =>
      .ok { method := "POST"
            url := OAUTH_TOKEN_URL
            headers := authHdr
            data := [("grant_type", "client_credentials")] }

/-- `_BaseClient._prep__check_authorization`: the scope-free probe
request used by `_check_authorization`. -/
def prepCheckAuthorization : Request :=
  { method := "GET"
    url := "https://api.spotify.com/v1/search?q=Hey+spotify+am+I+authorized&type=artist"
    headers := [] }

/-- `_BaseClient._user_json_to_object`: builds a `UserCreds` from a token
response; `json_response["access_token"]`, `["scope"]` and
`["expires_in"]` are subscript accesses (`KeyError` when absent),
`refresh_token` uses `.get` with a `None` default.  `expiry` is
`utcnow() + timedelta(seconds=expires_in)`. -/
def userJsonToObject (utcnow : Int) (j : JsonBody) : Except PyError UserCreds :=
  match j.access_token, j.scope, j.expires_in with
  | some tok, some sc, some ei =>
    .ok { access_token := some tok
          scopes := pySplitSpace sc
          expiry := some (utcnow + ei)
          refresh_token := j.refresh_token }
  | _, _, _ => .error .keyError

/-- `_BaseClient._client_json_to_object`: a fresh `ClientCreds()` (all
constructor defaults) with `access_token` and `expiry` set from the token
response. -/
def clientJsonToObject (utcnow : Int) (j : JsonBody) : Except PyError ClientCreds :=
  match j.access_token, j.expires_in with
  | some tok, some ei =>
    .ok { ClientCreds.init none none none none (some false) with
            access_token := some tok
            expiry := some (utcnow + ei) }
  | _, _ => .error .keyError

/-- `_BaseClient._update_user_creds_with`: every non-`None` field of the
new object is copied onto the existing user credential.  `scopes` is a
list (never `None` on an object produced by `_user_json_to_object` or the
constructor), so it is always copied. -/
def updateUserCredsWith (old new : UserCreds) : UserCreds :=
  { access_token := if new.access_token.isSome then new.access_token else old.access_token
    refresh_token := if new.refresh_token.isSome then new.refresh_token else old.refresh_token
    expiry := if new.expiry.isSome then new.expiry else old.expiry
    scopes := new.scopes }

/-- `_BaseClient._update_client_creds_with`: non-`None` fields of the new
object overwrite the stored client credential.  A fresh `ClientCreds()`
has non-`None` `scopes`, `redirect_uri` and `show_dialog`, so those are
copied as well. -/
def updateClientCredsWith (old new : ClientCreds) : ClientCreds :=
  { client_id := if new.client_id.isSome then new.client_id else old.client_id
    client_secret := if new.client_secret.isSome then new.client_secret else old.client_secret
    scopes := new.scopes
    redirect_uri := if new.redirect_uri.isSome then new.redirect_uri else old.redirect_uri
    show_dialog := if new.show_dialog.isSome then new.show_dialog else old.show_dialog
    access_token := if new.access_token.isSome then new.access_token else old.access_token
    expiry := if new.expiry.isSome then new.expiry else old.expiry }

/-! ## Client construction (`_BaseClient.__init__`, lines 107-131) -/

/-- `_BaseClient.__init__`, credential wiring (the
`ensure_user_auth` immediate authorization probe — a network call only
performed by the sync client when that flag is set — is outside this
definition and does not affect the wiring below): providing both an
`access_token` and a `user_creds` model raises `ValueError`; an
`access_token` alone is wrapped in a fresh `UserCreds`; the caller is the
user credential when present, else the client credential when it already
holds an access token, else `None`. -/
def initClient (access_token : Option String) (client_creds : ClientCreds)
    (user_creds : Option UserCreds) (utcnow : Int) (max_retries : Nat) :
    Except PyError ClientState :=
  match access_token with
  | some tok =>
    if user_creds.isSome then
      .error (.valueError "Either provide an access token or a user model, not both!")
    else
      let uc := UserCreds.init (some tok) none none none
      .ok { user_creds := some uc, client_creds := client_creds,
            caller := .userObj, utcnow := utcnow, max_retries := max_retries }
  | none =>
    match user_creds with
    | some uc =>
      .ok { user_creds := some uc, client_creds := client_creds,
            caller := .userObj, utcnow := utcnow, max_retries := max_retries }
    | none =>
      if truthyStr client_creds.access_token then
        .ok { user_creds := none, client_creds := client_creds,
              caller := .clientObj, utcnow := utcnow, max_retries := max_retries }
      else
        .ok { user_creds := none, client_creds := client_creds,
              caller := .noneObj, utcnow := utcnow, max_retries := max_retries }

/-! ## Worlds, runs and outcomes -/

/-- Observable events of a modelled run: an invocation of
`_refresh_token` and the materialization (`await coro`) of the `i`-th
pending request inside `AsyncSpotify._gather`. -/
inductive Ev where
  | refresh
  | materialize (i : Nat)
  deriving DecidableEq, Repr

/-- The mutable world of a run: the client state, the number of network
sends attempted so far (which indexes the transport script), and the
event trace. -/
structure World where
  st : ClientState
  sends : Nat
  trace : List Ev := []
  deriving DecidableEq, Repr

/-- The scripted transport: send number `k` receives `transport k`. -/
abbrev Transport := Nat → ScriptedResponse

/-- Outcome of a modelled call: a returned value, a raised Python
exception, or fuel exhaustion (the run neither returned nor raised
within the modelled depth). -/
inductive Res (α : Type) where
  | ok (a : α) (w : World)
  | err (e : PyError) (w : World)
  | diverge (w : World)
  deriving DecidableEq, Repr

/-- Whether the run exhausted its fuel. -/
def Res.isDiverge : Res α → Bool
  | .diverge _ => true
  | _ => false

/-- The exception raised by the run, if any. -/
def Res.errOf : Res α → Option PyError
  | .err e _ => some e
  | _ => none

/-- The final world of the run. -/
def Res.world : Res α → World
  | .ok _ w => w
  | .err _ w => w
  | .diverge w => w

/-- Python `a or b` on optional strings (`None` and `""` are falsy). -/
def pyOrStr : Option String → Option String → Option String
  | some s, b => if s.isEmpty then b else some s
  | none, b => b

/-- `res.json().get("error_description") or res.json()`: the message of
the `AuthError` raised on a non-token-expiry 401. -/
def msg401 (j : JsonBody) : ErrMsg :=
  match j.error_description with
  | some d => if d.isEmpty then .json j else .str d
  | none => .json j

/-- `_safe_getitem(res.json(), "error", "message") or
_safe_getitem(res.json(), "error_description")`: the message attached to
generic `ApiError`s (and to `_TooManyRequests` in the async client). -/
def msgGeneric (j : JsonBody) : ErrMsg :=
  match pyOrStr (j.errorMessage.getD none) j.error_description with
  | some s => .str s
  | none => .noneMsg

/-- The infinite-loop guard message of `_send_request` /
`_handle_send_requests`. -/
def NOT_REFRESHED_MSG : String :=
  "refresh_token() was successfully called but token wasn't refreshed. Execution stopped to avoid infinite looping."

/-- The timeout message of `Spotify._send_request`. -/
def TIMEOUT_MSG : String :=
  "Request timed out.\nTry increasing the client's timeout period"

/-! ## The blocking dispatcher (`pyfy/sync_client.py`) -/

/-- The entry points of the blocking dispatch engine. -/
inductive SCall where
  | sendReq (r : Request)
  | sendAuthReq (r : Request)
  | refreshTok
  | refreshUser
  | authClient
  | checkAuth
  deriving DecidableEq, Repr

/-- Return values of the blocking entry points. -/
inductive SVal where
  | resp (r : ScriptedResponse)
  | unit
  deriving DecidableEq, Repr

/-- The blocking dispatch engine, one branch per source method:

* `sendReq r` — `Spotify._send_request`: send, and on failure classify:
  timeout → `ApiError`; 401 whose provider message is
  `TOKEN_EXPIRED_MSG` → capture the current `Authorization` header
  *string*, run `_refresh_token`, recompute the authorization header
  *dict*, compare the two with Python `==` (`pyEq`), raise
  `RuntimeError` if equal, else update the headers and resend; other
  401 → `AuthError`; any other non-2xx → `ApiError`.
* `sendAuthReq r` — `Spotify._send_authorized_request`: proactively
  refresh when the active caller's `access_is_expired` is `True`, attach
  the authorization header, send.
* `refreshTok` — `Spotify._refresh_token`: route by identity of the
  active caller; neither credential object → `AuthError`.
* `refreshUser` — `Spotify._refresh_user_token`: prep (which raises
  before any network call when no refresh token is present), send the
  token request, merge the non-`None` fields of the response credential.
* `authClient` — `Spotify.authorize_client_creds()`: prep, send, wrap
  `ApiError` into `AuthError`, merge client credentials, point the
  caller at the client credential, probe with `_check_authorization`.
* `checkAuth` — `Spotify._check_authorization`: an authorized probe
  request.

Fuel is consumed at every call; `Res.diverge` means the run was still
going after `fuel` nested calls. -/
def sexec (tr : Transport) : Nat → SCall → World → Res SVal
  | 0, _, w => .diverge w
  | fuel + 1, c, w =>
    match c with
    | .sendReq r =>
      let res := tr w.sends
      let w := { w with sends := w.sends + 1 }
      match res with
      | .timeout => .err (.apiError (.str TIMEOUT_MSG)) w
      | .http status j =>
        if status < 400 then .ok (.resp res) w
        else if status == 401 then
          match j.errorMessage with
          | none => .err .attributeError w
          | some msgOpt =>
            if msgOpt == some TOKEN_EXPIRED_MSG then
              match dictGet r.headers "Authorization" with
              | none => .err .keyError w
              | some oldStr =>
                match sexec tr fuel .refreshTok w with
                | .err e w => .err e w
                | .diverge w => .diverge w
                | .ok _ w =>
                  match accessAuthorizationHeader w.st with
                  | .error e => .err e w
                  | .ok hdr =>
                    if pyEq (.dict hdr) (.str oldStr) then
                      .err (.runtimeError NOT_REFRESHED_MSG) w
                    else
                      sexec tr fuel
                        (.sendReq { r with headers := dictUpdate r.headers hdr }) w
            else
              .err (.authError (msg401 j)) w
        else
          .err (.apiError (msgGeneric j)) w
    | .sendAuthReq r =>
      let pre : Res SVal :=
        if callerAccessIsExpired w.st == some true then
          sexec tr fuel .refreshTok w
        else .ok .unit w
      match pre with
      | .err e w => .err e w
      | .diverge w => .diverge w
      | .ok _ w =>
        match accessAuthorizationHeader w.st with
        | .error e => .err e w
        | .ok hdr =>
          sexec tr fuel (.sendReq { r with headers := dictUpdate r.headers hdr }) w
    | .refreshTok =>
      let w := { w with trace := w.trace ++ [Ev.refresh] }
      if callerIsUserCreds w.st then sexec tr fuel .refreshUser w
      else if callerIsClientCreds w.st then sexec tr fuel .authClient w
      else .err (.authError (.str "No caller to refresh token for")) w
    | .refreshUser =>
      match prepRefreshUserToken w.st with
      | .error e => .err e w
      | .ok r =>
        match sexec tr fuel (.sendReq r) w with
        | .err e w => .err e w
        | .diverge w => .diverge w
        | .ok v w =>
          match v with
          | .unit => .diverge w
          | .resp res =>
            match userJsonToObject w.st.utcnow res.jsonOf with
            | .error e => .err e w
            | .ok newCreds =>
              match w.st.user_creds with
              | none => .err .attributeError w
              | some old =>
                .ok .unit
                  { w with st :=
                    { w.st with user_creds := some (updateUserCredsWith old newCreds) } }
    | .authClient =>
      match prepAuthorizeClientCreds w.st.client_creds with
      | .error e => .err e w
      | .ok r =>
        match sexec tr fuel (.sendReq r) w with
        | .diverge w => .diverge w
        | .err e w =>
          if e.isApiError then
            .err (.authError (.str "Failed to authenticate with client credentials")) w
          else .err e w
        | .ok v w =>
          match v with
          | .unit => .diverge w
          | .resp res =>
            match clientJsonToObject w.st.utcnow res.jsonOf with
            | .error e => .err e w
            | .ok newCC =>
              sexec tr fuel .checkAuth
                { w with st :=
                  { w.st with
                      client_creds := updateClientCredsWith w.st.client_creds newCC
                      caller := .clientObj } }
    | .checkAuth =>
      sexec tr fuel (.sendAuthReq prepCheckAuthorization) w

/-! ## The asynchronous dispatcher (`pyfy/async_client.py`) -/

/-- The entry points of the asynchronous dispatch engine. -/
inductive ACall where
  | handle (r : Request)
  | backoffTry (r : Request) (remaining : Nat)
  | sendWithBackoff (r : Request)
  | sendReqsSingle (r : Request)
  | sendReqsGather (rs : List Request)
  | sendAuthReqs (rs : List Request) (gather : Bool)
  | refreshTok
  | refreshUser
  | authClient
  | checkAuth
  | gatherReqs (refreshFirst : Bool) (coros : List Request)
  deriving DecidableEq, Repr

/-- Return values of the asynchronous entry points. -/
inductive AVal where
  | resp (r : ScriptedResponse)
  | list (rs : List ScriptedResponse)
  | jsonList (js : List JsonBody)
  | unit
  deriving DecidableEq, Repr

/-- The asynchronous dispatch engine, one branch per source method:

* `handle r` — `AsyncSpotify._handle_send_requests`: send; timeout is
  re-raised (and is retryable by the backoff layer); 401 with the
  token-expiry provider message captures the `Authorization` header
  *string*, refreshes, recomputes the header *dict*, compares the two
  with Python `==` (`pyEq`), raises `RuntimeError` if equal, else
  updates the headers and resends through `_send_requests`; other 401 →
  `AuthError`; 429 → `_TooManyRequests`; other non-2xx → `ApiError`.
* `backoffTry r remaining` — the retry loop of
  `backoff.on_exception(backoff.expo, (_TooManyRequests, TimeoutError,
  ClientConnectionError), max_tries=self.max_retries)`, an external
  library used by `_send_request_with_backoff`, modelled by its
  documented contract: at most `max_tries` calls of the wrapped
  function, retrying only the listed exception types, re-raising the
  last exception; the sleeps between tries are real-time behaviour and
  are not modelled (`max_time` likewise).
* `sendWithBackoff r` — `AsyncSpotify._send_request_with_backoff`.
* `sendReqsSingle r` / `sendReqsGather rs` —
  `AsyncSpotify._send_requests` with `gather=False` / `gather=True`.
  The concurrent fan-out is serialized here (this run model only counts
  effects; placement of results under arbitrary completion orders is
  modelled separately by `gatherCollect`);
  `asyncio.gather(return_exceptions=False)` propagates the first
  failure.
* `sendAuthReqs rs gather` — `AsyncSpotify._send_authorized_requests`:
  proactive refresh when the active caller's `access_is_expired` is
  `True`, then header attachment on every request; with `gather=False`
  only `reqs[0]` is sent (an empty list would be an `IndexError`).
* `refreshTok` / `refreshUser` / `authClient` / `checkAuth` — the
  `AsyncSpotify` versions of the corresponding sync methods; identical
  control flow, but every send goes through `_send_requests`.
* `gatherReqs refreshFirst coros` — `AsyncSpotify._gather` with
  `return_exceptions=False`: optional single refresh, then
  materialization of every pending request (`[await coro for coro in
  coros]`, recorded as `materialize` events; the `"headers" not in
  request` `TypeError` check always passes because every materialized
  request model carries a headers field), then
  `_send_authorized_requests(..., gather=True)` and extraction of the
  JSON bodies. -/
def aexec (tr : Transport) : Nat → ACall → World → Res AVal
  | 0, _, w => .diverge w
  | fuel + 1, c, w =>
    match c with
    | .handle r =>
      let res := tr w.sends
      let w := { w with sends := w.sends + 1 }
      match res with
      | .timeout => .err .timeoutError w
      | .http status j =>
        if status < 400 then .ok (.resp res) w
        else if status == 401 then
          match j.errorMessage with
          | none => .err .attributeError w
          | some msgOpt =>
            if msgOpt == some TOKEN_EXPIRED_MSG then
              match dictGet r.headers "Authorization" with
              | none => .err .keyError w
              | some oldStr =>
                match aexec tr fuel .refreshTok w with
                | .err e w => .err e w
                | .diverge w => .diverge w
                | .ok _ w =>
                  match accessAuthorizationHeader w.st with
                  | .error e => .err e w
                  | .ok hdr =>
                    if pyEq (.dict hdr) (.str oldStr) then
                      .err (.runtimeError NOT_REFRESHED_MSG) w
                    else
                      aexec tr fuel
                        (.sendReqsSingle { r with headers := dictUpdate r.headers hdr }) w
            else
              .err (.authError (msg401 j)) w
        else if status == 429 then
          .err (.tooManyRequests (msgGeneric j)) w
        else
          .err (.apiError (msgGeneric j)) w
    | .backoffTry r remaining =>
      match aexec tr fuel (.handle r) w with
      | .ok v w => .ok v w
      | .diverge w => .diverge w
      | .err e w =>
        if e.isBackoffRetryable && decide (1 < remaining) then
          aexec tr fuel (.backoffTry r (remaining - 1)) w
        else .err e w
    | .sendWithBackoff r =>
      aexec tr fuel (.backoffTry r w.st.max_retries) w
    | .sendReqsSingle r =>
      aexec tr fuel (.sendWithBackoff r) w
    | .sendReqsGather rs =>
      match rs with
      | [] => .ok (.list []) w
      | r :: rest =>
        match aexec tr fuel (.sendWithBackoff r) w with
        | .err e w => .err e w
        | .diverge w => .diverge w
        | .ok v w =>
          match v with
          | .resp res =>
            match aexec tr fuel (.sendReqsGather rest) w with
            | .ok (.list others) w => .ok (.list (res :: others)) w
            | .ok _ w => .diverge w
            | .err e w => .err e w
            | .diverge w => .diverge w
          | _ => .diverge w
    | .sendAuthReqs rs gather =>
      let pre : Res AVal :=
        if callerAccessIsExpired w.st == some true then
          aexec tr fuel .refreshTok w
        else .ok .unit w
      match pre with
      | .err e w => .err e w
      | .diverge w => .diverge w
      | .ok _ w =>
        match accessAuthorizationHeader w.st with
        | .error e => .err e w
        | .ok hdr =>
          let rs' := rs.map (fun r => { r with headers := dictUpdate r.headers hdr })
          if gather then aexec tr fuel (.sendReqsGather rs') w
          else
            match rs' with
            | [] => .err .indexError w
            | r :: _ => aexec tr fuel (.sendReqsSingle r) w
    | .refreshTok =>
      let w := { w with trace := w.trace ++ [Ev.refresh] }
      if callerIsUserCreds w.st then aexec tr fuel .refreshUser w
      else if callerIsClientCreds w.st then aexec tr fuel .authClient w
      else .err (.authError (.str "No caller to refresh token for")) w
    | .refreshUser =>
      match prepRefreshUserToken w.st with
      | .error e => .err e w
      | .ok r =>
        match aexec tr fuel (.sendReqsSingle r) w with
        | .err e w => .err e w
        | .diverge w => .diverge w
        | .ok v w =>
          match v with
          | .resp res =>
            match userJsonToObject w.st.utcnow res.jsonOf with
            | .error e => .err e w
            | .ok newCreds =>
              match w.st.user_creds with
              | none => .err .attributeError w
              | some old =>
                .ok .unit
                  { w with st :=
                    { w.st with user_creds := some (updateUserCredsWith old newCreds) } }
          | _ => .diverge w
    | .authClient =>
      match prepAuthorizeClientCreds w.st.client_creds with
      | .error e => .err e w
      | .ok r =>
        match aexec tr fuel (.sendReqsSingle r) w with
        | .diverge w => .diverge w
        | .err e w =>
          if e.isApiError then
            .err (.authError (.str "Failed to authenticate with client credentials")) w
          else .err e w
        | .ok v w =>
          match v with
          | .resp res =>
            match clientJsonToObject w.st.utcnow res.jsonOf with
            | .error e => .err e w
            | .ok newCC =>
              aexec tr fuel .checkAuth
                { w with st :=
                  { w.st with
                      client_creds := updateClientCredsWith w.st.client_creds newCC
                      caller := .clientObj } }
          | _ => .diverge w
    | .checkAuth =>
      aexec tr fuel (.sendAuthReqs [prepCheckAuthorization] false) w
    | .gatherReqs refreshFirst coros =>
      let pre : Res AVal :=
        if refreshFirst then aexec tr fuel .refreshTok w else .ok .unit w
      match pre with
      | .err e w => .err e w
      | .diverge w => .diverge w
      | .ok _ w =>
        let w := { w with
          trace := w.trace ++ (List.range coros.length).map Ev.materialize }
        match aexec tr fuel (.sendAuthReqs coros true) w with
        | .err e w => .err e w
        | .diverge w => .diverge w
        | .ok v w =>
          match v with
          | .list rs => .ok (.jsonList (rs.map ScriptedResponse.jsonOf)) w
          | _ => .diverge w

/-! ## Completion-order model of the concurrent fan-out

`AsyncSpotify._send_requests` with `gather=True` creates one task per
request, in input order, and collects their results with
`asyncio.gather`, which reserves one result slot per task.  The
scheduler is modelled by a *completion order*: the list of task indices
in the order in which the tasks finish and deposit their results.  Each
finishing task writes its own result into its own slot. -/

/-- Slot placement: starting from `resList.length` empty slots, each
index in `completionOrder` deposits the result of the task with that
index into the slot with that index.  Indices outside the batch do
nothing. -/
def gatherCollect (resList : List α) (completionOrder : List Nat) :
    List (Option α) :=
  completionOrder.foldl
    (fun slots i =>
      match resList.get? i with
      | some v => slots.set i (some v)
      | none => slots)
    (List.replicate resList.length none)

/-- The batch result of `_send_requests(gather=True)` under a given
completion order: task `i` computes `handler` of the `i`-th request, and
the collected list is the slot array after every task finished. -/
def batchResults (handler : Request → α) (reqs : List Request)
    (completionOrder : List Nat) : List (Option α) :=
  gatherCollect (reqs.map handler) completionOrder

/-! ## A concrete "refresh changes nothing" scenario

A user caller whose token endpoint keeps returning the *same* access
token: every request is answered 401 with the provider's token-expired
message, and every refresh succeeds but reproduces the identical bearer
token.  This instantiates the spec's "stub refresher that updates
nothing". -/

/-- The user credential of the scenario: access token `"tok"`, a refresh
token, expiry matching what each refresh re-derives (so the refresh is a
perfect no-op on the credential). -/
def userCredsC : UserCreds :=
  { access_token := some "tok", refresh_token := some "rtok",
    expiry := some 4600, scopes := ["user-read-email"] }

/-- Client credential with id and secret set (constructor defaults
otherwise). -/
def clientCredsC : ClientCreds :=
  ClientCreds.init (some "cid") (some "cs") none none (some false)

/-- The client state of the scenario: the user credential is the active
caller; the frozen clock is 1000. -/
def stLoop : ClientState :=
  { user_creds := some userCredsC, client_creds := clientCredsC,
    caller := .userObj, utcnow := 1000, max_retries := 2 }

/-- The token-endpoint 200 body: the *same* access token, `expires_in`
3600 (so the re-derived expiry `1000 + 3600` equals the stored one). -/
def tokenJsonSame : JsonBody :=
  { access_token := some "tok", scope := some "user-read-email",
    expires_in := some 3600 }

/-- The 401 body whose provider message is the token-expired marker. -/
def expiredJson401 : JsonBody :=
  { errorMessage := some (some TOKEN_EXPIRED_MSG) }

/-- The scripted transport of the scenario: resource sends (even send
numbers) are answered 401-expired, token-endpoint sends (odd send
numbers) 200 with the unchanged token. -/
def trLoop : Transport := fun k =>
  if k % 2 == 0 then .http 401 expiredJson401 else .http 200 tokenJsonSame

/-- The outgoing resource request, already carrying the bearer header. -/
def reqLoop : Request :=
  { method := "GET", url := "https://api.spotify.com/v1/me",
    headers := [("Authorization", "Bearer tok")] }

/-- The initial world of the scenario. -/
def wLoop : World := { st := stLoop, sends := 0 }

/-- The token-endpoint request `_prep_refresh_user_token` builds from
`stLoop`. -/
def rTokC : Request :=
  { method := "POST", url := OAUTH_TOKEN_URL,
    headers := [("Authorization", "Basic " ++ b64Encode "cid:cs"),
                ("Content-Type", "application/x-www-form-urlencoded")],
    data := [("grant_type", "refresh_token"), ("refresh_token", "rtok")] }

/-- In the scenario, a user-token refresh at an odd send number succeeds
and leaves the client state unchanged (the merged credential equals the
stored one). -/
lemma sync_refresh_cycle (k sends : Nat) (trace : List Ev)
    (hpar : sends % 2 = 1) :
    sexec trLoop (k + 1 + 1 + 1) .refreshTok ⟨stLoop, sends, trace⟩ =
      .ok .unit ⟨stLoop, sends + 1, trace ++ [Ev.refresh]⟩ := by
  have h1 : trLoop sends = .http 200 tokenJsonSame := by simp [trLoop, hpar]
  have hprep : prepRefreshUserToken stLoop = .ok rTokC := by rfl
  have hjson : userJsonToObject 1000 (ScriptedResponse.http 200 tokenJsonSame).jsonOf
      = .ok { access_token := some "tok", refresh_token := none,
              expiry := some 4600, scopes := ["user-read-email"] } := by rfl
  have hmerge : updateUserCredsWith userCredsC
      { access_token := some "tok", refresh_token := none,
        expiry := some 4600, scopes := ["user-read-email"] } = userCredsC := by rfl
  have hcaller : callerIsUserCreds stLoop = true := by rfl
  simp only [sexec, hcaller, hprep, h1, hjson, hmerge, if_true]
  rfl

/-- One full 401-refresh-resend cycle of the blocking dispatcher in the
scenario: the refresh succeeds, the recomputed header dict is compared
against the captured header string, the comparison is `false` (dict
never equals string), and the dispatcher *resends* — consuming two sends
and recording one refresh. -/
lemma sync_loop_step (k sends : Nat) (trace : List Ev)
    (hpar : sends % 2 = 0) :
    sexec trLoop (k + 1 + 1 + 1 + 1) (.sendReq reqLoop) ⟨stLoop, sends, trace⟩ =
      sexec trLoop (k + 1 + 1 + 1) (.sendReq reqLoop)
        ⟨stLoop, sends + 2, trace ++ [Ev.refresh]⟩ := by
  have h0 : trLoop sends = .http 401 expiredJson401 := by simp [trLoop, hpar]
  have hcycle := sync_refresh_cycle k (sends + 1) trace (by omega)
  have hold : dictGet reqLoop.headers "Authorization" = some "Bearer tok" := by rfl
  have hhdr : accessAuthorizationHeader stLoop = .ok [("Authorization", "Bearer tok")] := by rfl
  have hpy : pyEq (.dict [("Authorization", "Bearer tok")]) (.str "Bearer tok") = false := by rfl
  rw [sexec.eq_2]
  simp only [h0, hold, hcycle, hhdr, hpy]
  norm_num
  simp only [expiredJson401]
  norm_num
  rfl

/-- In the scenario the blocking dispatcher never returns and never
raises, for *every* fuel bound: the refresh→401→refresh loop is
genuinely infinite. -/
lemma sync_loop_diverges : ∀ (F sends : Nat) (trace : List Ev), sends % 2 = 0 →
    (sexec trLoop F (.sendReq reqLoop) ⟨stLoop, sends, trace⟩).isDiverge = true := by
  intro F
  induction F using Nat.strong_induction_on with
  | _ F ih =>
    match F with
    | 0 => intro sends trace _; rfl
    | 1 | 2 | 3 =>
      intro sends trace hpar
      have h0 : trLoop sends = .http 401 expiredJson401 := by simp [trLoop, hpar]
      have hcaller : callerIsUserCreds stLoop = true := rfl
      have hclient : callerIsClientCreds stLoop = false := rfl
      have hprep : prepRefreshUserToken stLoop = .ok rTokC := rfl
      have hold : dictGet reqLoop.headers "Authorization" = some "Bearer tok" := rfl
      simp [sexec, h0, hcaller, hclient, hprep, hold, expiredJson401, Res.isDiverge]
    | (k + 1 + 1 + 1 + 1) =>
      intro sends trace hpar
      rw [sync_loop_step k sends trace hpar]
      exact ih (k + 1 + 1 + 1) (by omega) (sends + 2) (trace ++ [Ev.refresh]) (by omega)

/-- A fuel-exhausted run raised nothing. -/
lemma Res.errOf_eq_none_of_isDiverge {α : Type} (r : Res α)
    (h : r.isDiverge = true) : r.errOf = none := by
  cases r <;> simp_all [Res.isDiverge, Res.errOf]

/-- The message of `_prep_refresh_user_token`'s `AuthError`. -/
def NO_REFRESH_TOKEN_MSG : String :=
  "Access token expired and couldn't find a refresh token to refresh it"

/-- `Spotify._refresh_user_token` on a user credential without a (truthy)
refresh token raises the `AuthError` inside `_prep_refresh_user_token`,
before any request is built, leaving the world untouched. -/
lemma sexec_refreshUser_unrefreshable (tr : Transport) (fuel : Nat)
    (w : World) (uc : UserCreds)
    (hu : w.st.user_creds = some uc)
    (hrt : truthyStr uc.refresh_token = false) :
    sexec tr (fuel + 1) .refreshUser w =
      .err (.authError (.str NO_REFRESH_TOKEN_MSG)) w := by
  simp [sexec, prepRefreshUserToken, hu, hrt, NO_REFRESH_TOKEN_MSG]

/-- `AsyncSpotify._refresh_user_token`, same behaviour. -/
lemma aexec_refreshUser_unrefreshable (tr : Transport) (fuel : Nat)
    (w : World) (uc : UserCreds)
    (hu : w.st.user_creds = some uc)
    (hrt : truthyStr uc.refresh_token = false) :
    aexec tr (fuel + 1) .refreshUser w =
      .err (.authError (.str NO_REFRESH_TOKEN_MSG)) w := by
  simp [aexec, prepRefreshUserToken, hu, hrt, NO_REFRESH_TOKEN_MSG]

/-! ## Further concrete fixtures used by witnesses and counterexamples -/

/-- A transport whose responses are never reached in the runs that use
it. -/
def trAny : Transport := fun _ => .http 200 {}

/-- A user credential with an access token but *no* refresh token, whose
expiry (500) lies before the clock (1000). -/
def ucNoRT : UserCreds :=
  { access_token := some "t", refresh_token := none,
    expiry := some 500, scopes := [] }

/-- Client state whose active caller is the unrefreshable expired user
credential. -/
def stNoRT : ClientState :=
  { user_creds := some ucNoRT, client_creds := clientCredsC,
    caller := .userObj, utcnow := 1000, max_retries := 2 }

/-- Initial world over `stNoRT`. -/
def wNoRT : World := { st := stNoRT, sends := 0 }

/-- A state whose `_caller` is Python `None` while `_user_creds` holds an
object (so `_caller is self.user_creds` and `_caller is
self.client_creds` are both false): e.g. a client built without
credentials whose `_user_creds` attribute was later assigned directly,
bypassing the `user_creds` setter. -/
def stNoCallerC : ClientState :=
  { user_creds := some userCredsC, client_creds := clientCredsC,
    caller := .noneObj, utcnow := 1000, max_retries := 2 }

/-- Initial world over `stNoCallerC`. -/
def wNoCallerC : World := { st := stNoCallerC, sends := 0 }

/-- A 401 body whose provider message is *not* the token-expired marker. -/
def jBad401 : JsonBody :=
  { errorMessage := some (some "Invalid access token"),
    error_description := some "Invalid access token" }

/-- A transport answering every send with the non-expiry 401. -/
def tr401bad : Transport := fun _ => .http 401 jBad401

/-- A `ClientCreds` built by the constructor with identifier, redirect
target and scopes all present but `show_dialog=None`. -/
def ccDialogNone : ClientCreds :=
  ClientCreds.init (some "client-id") (some "secret")
    (some ["user-read-email"]) (some "http://localhost") none

/-! ## Claims -/

/-- C1: the spec says that when a 401 carries the provider's
token-expired message, the refresher runs, and the recomputed access
authorization header is byte-for-byte equal to the captured one, the
dispatcher raises immediately and never resends, in both dispatch
paths.  The code is wrong: it captures the header *string*
(`r.headers["Authorization"]`) but recomputes the header *dict*
(`self._access_authorization_header`), and Python `==` between a dict
and a string is always `False`, so the guard can never fire.  In the
concrete stub-refresher scenario (`trLoop`: every request is answered
401-expired, every refresh reproduces the identical bearer token) the
blocking dispatcher, at *every* fuel bound, neither returns nor raises
— it resends forever (13 sends within 9 nested calls) — and the
asynchronous dispatcher does the same. -/
theorem claim_C1_refresh_guard_unreachable :
    (∀ (entries : List (String × String)) (s : String),
      pyEq (.dict entries) (.str s) = false)
    ∧ (∀ F, (sexec trLoop F (.sendReq reqLoop) wLoop).isDiverge = true)
    ∧ (sexec trLoop 9 (.sendReq reqLoop) wLoop).world.sends = 13
    ∧ (aexec trLoop 30 (.handle reqLoop) wLoop).isDiverge = true
    ∧ (aexec trLoop 30 (.handle reqLoop) wLoop).world.sends = 13 := by
  refine ⟨fun _ _ => rfl, fun F => sync_loop_diverges F 0 [] rfl, rfl, rfl, rfl⟩

/-- C2: `access_is_expired` returns the unknown value (`None`) when no
expiry is tracked, `True` when the stored expiry lies strictly in the
past, and `False` when it lies strictly in the future.  The embedded
operation is a total pure function of the expiry and the clock, so it
never raises and has no side effects on the credential. -/
theorem claim_C2_access_is_expired (now e : Int) :
    access_is_expired none now = none
    ∧ (e < now → access_is_expired (some e) now = some true)
    ∧ (now < e → access_is_expired (some e) now = some false) := by
  refine ⟨rfl, fun h => ?_, fun h => ?_⟩ <;>
    · simp only [access_is_expired, Option.some.injEq, decide_eq_true_eq,
        decide_eq_false_iff_not]
      omega

/-- Witness for C2 at concrete instants: clock 100, expiries 99 (past)
and 101 (future), and no expiry. -/
theorem claim_C2_witness :
    access_is_expired none 100 = none
    ∧ access_is_expired (some 99) 100 = some true
    ∧ access_is_expired (some 101) 100 = some false :=
  ⟨(claim_C2_access_is_expired 100 99).1,
   (claim_C2_access_is_expired 100 99).2.1 (by norm_num),
   (claim_C2_access_is_expired 100 101).2.2 (by norm_num)⟩

/-- C3: with a `UserCreds` active caller whose access token is expired
and which has no refresh token, `send()` (`_send_authorized_request`)
raises the `AuthError` of `_prep_refresh_user_token` and the send
counter is untouched — no network request is attempted.  Moreover the
user-refresh strategy itself (`_refresh_user_token`, blocking and
asynchronous) returns the same `AuthError` with the world completely
unchanged, so every one of its invocations fails identically, without a
network call. -/
theorem claim_C3_unrefreshable_expired_user (tr : Transport) (fuel : Nat)
    (w : World) (uc : UserCreds) (r : Request) (e : Int)
    (hcaller : w.st.caller = .userObj)
    (hu : w.st.user_creds = some uc)
    (hrt : truthyStr uc.refresh_token = false)
    (he : uc.expiry = some e) (hpast : e < w.st.utcnow) :
    sexec tr (fuel + 1 + 1 + 1) (.sendAuthReq r) w =
      .err (.authError (.str NO_REFRESH_TOKEN_MSG))
        { w with trace := w.trace ++ [Ev.refresh] }
    ∧ (sexec tr (fuel + 1 + 1 + 1) (.sendAuthReq r) w).world.sends = w.sends
    ∧ sexec tr (fuel + 1) .refreshUser w =
        .err (.authError (.str NO_REFRESH_TOKEN_MSG)) w
    ∧ aexec tr (fuel + 1) .refreshUser w =
        .err (.authError (.str NO_REFRESH_TOKEN_MSG)) w := by
  have hexp : callerAccessIsExpired w.st = some true := by
    simp [callerAccessIsExpired, hcaller, hu, he, access_is_expired]
    omega
  have hmain : sexec tr (fuel + 1 + 1 + 1) (.sendAuthReq r) w =
      .err (.authError (.str NO_REFRESH_TOKEN_MSG))
        { w with trace := w.trace ++ [Ev.refresh] } := by
    simp [sexec, hexp, callerIsUserCreds, hcaller, prepRefreshUserToken, hu, hrt,
      NO_REFRESH_TOKEN_MSG]
  refine ⟨hmain, by rw [hmain]; rfl, ?_, ?_⟩
  · exact sexec_refreshUser_unrefreshable tr fuel w uc hu hrt
  · exact aexec_refreshUser_unrefreshable tr fuel w uc hu hrt

/-- Witness for C3: the concrete unrefreshable expired state `stNoRT`
(expiry 500, clock 1000, no refresh token). -/
theorem claim_C3_witness :
    sexec trAny 3 (.sendAuthReq reqLoop) wNoRT =
      .err (.authError (.str NO_REFRESH_TOKEN_MSG))
        { wNoRT with trace := [Ev.refresh] }
    ∧ (sexec trAny 3 (.sendAuthReq reqLoop) wNoRT).world.sends = 0
    ∧ sexec trAny 1 .refreshUser wNoRT =
        .err (.authError (.str NO_REFRESH_TOKEN_MSG)) wNoRT
    ∧ aexec trAny 1 .refreshUser wNoRT =
        .err (.authError (.str NO_REFRESH_TOKEN_MSG)) wNoRT :=
  claim_C3_unrefreshable_expired_user trAny 0 wNoRT ucNoRT reqLoop 500
    rfl rfl rfl rfl (by decide)

/-- C4 counterexample: the claim says every caller-must-reauthenticate
condition — including a refresh that ran successfully but produced no
change to the auth header — surfaces as an `AuthError`.  In the
concrete no-change scenario the blocking dispatcher raises nothing at
all within 40 nested calls (it is still resending), so that condition
does not surface as an `AuthError`. -/
theorem claim_C4_counterexample :
    (sexec trLoop 40 (.sendReq reqLoop) wLoop).errOf = none
    ∧ (sexec trLoop 40 (.sendReq reqLoop) wLoop).isDiverge = true := by
  exact ⟨Res.errOf_eq_none_of_isDiverge _ (sync_loop_diverges 40 0 [] rfl),
    sync_loop_diverges 40 0 [] rfl⟩

/-- C4 (amended): unauthorized (a 401 whose provider message is not the
token-expired marker) and unrefreshable conditions surface as
`AuthError`, in both dispatch paths; but a refresh that runs
successfully and produces no header change does *not* surface as an
`AuthError`: the guard that was meant to catch it compares a dict to a
string, never fires, and the dispatcher resends forever — and even the
guard's own (unreachable) branch raises `RuntimeError`, which is not an
`AuthError`. -/
theorem claim_C4_reauth_conditions_amended :
    (∀ (tr : Transport) (fuel : Nat) (w : World) (r : Request) (j : JsonBody)
      (m : Option String),
      tr w.sends = .http 401 j → j.errorMessage = some m →
      (m == some TOKEN_EXPIRED_MSG) = false →
      sexec tr (fuel + 1) (.sendReq r) w =
        .err (.authError (msg401 j)) { w with sends := w.sends + 1 }
      ∧ aexec tr (fuel + 1) (.handle r) w =
          .err (.authError (msg401 j)) { w with sends := w.sends + 1 })
    ∧ (∀ (tr : Transport) (fuel : Nat) (w : World) (uc : UserCreds),
      w.st.user_creds = some uc → truthyStr uc.refresh_token = false →
      sexec tr (fuel + 1) .refreshUser w =
        .err (.authError (.str NO_REFRESH_TOKEN_MSG)) w)
    ∧ (∀ F, (sexec trLoop F (.sendReq reqLoop) wLoop).errOf = none)
    ∧ (PyError.runtimeError NOT_REFRESHED_MSG).isAuthError = false := by
  refine ⟨?_, ?_, ?_, rfl⟩
  · intro tr fuel w r j m h401 hmsg hne
    constructor
    · simp [sexec, h401, hmsg, hne]
    · simp [aexec, h401, hmsg, hne]
  · intro tr fuel w uc hu hrt
    exact sexec_refreshUser_unrefreshable tr fuel w uc hu hrt
  · intro F
    exact Res.errOf_eq_none_of_isDiverge _ (sync_loop_diverges F 0 [] rfl)

/-- Witness for C4: the non-expiry 401 transport `tr401bad` yields
`AuthError` in both paths, the unrefreshable state `stNoRT` yields
`AuthError`, and at fuel 5 the no-change scenario has surfaced
nothing. -/
theorem claim_C4_witness :
    sexec tr401bad 1 (.sendReq reqLoop) wLoop =
      .err (.authError (msg401 jBad401)) { wLoop with sends := 1 }
    ∧ aexec tr401bad 1 (.handle reqLoop) wLoop =
        .err (.authError (msg401 jBad401)) { wLoop with sends := 1 }
    ∧ sexec trAny 1 .refreshUser wNoRT =
        .err (.authError (.str NO_REFRESH_TOKEN_MSG)) wNoRT
    ∧ (sexec trLoop 5 (.sendReq reqLoop) wLoop).errOf = none :=
  ⟨(claim_C4_reauth_conditions_amended.1 tr401bad 0 wLoop reqLoop jBad401
      (some "Invalid access token") rfl rfl rfl).1,
   (claim_C4_reauth_conditions_amended.1 tr401bad 0 wLoop reqLoop jBad401
      (some "Invalid access token") rfl rfl rfl).2,
   claim_C4_reauth_conditions_amended.2.1 trAny 0 wNoRT ucNoRT rfl rfl,
   claim_C4_reauth_conditions_amended.2.2.1 5⟩

/-- C5 counterexample: in the concrete neither-caller state the error
raised by `refresh()` is an `AuthError` (kind Auth, not Api) and its
message is `"No caller to refresh token for"`, not `"no caller to
refresh"`. -/
theorem claim_C5_counterexample :
    (sexec trAny 2 .refreshTok wNoCallerC).errOf =
      some (.authError (.str "No caller to refresh token for"))
    ∧ (sexec trAny 2 .refreshTok wNoCallerC).errOf.map PyError.isApiError =
        some false := by
  exact ⟨rfl, rfl⟩

/-- C5 (amended): whenever the active caller is neither the user
credential object nor the client credential object (by identity),
`_refresh_token` — blocking and asynchronous — raises an `AuthError`
with the message `"No caller to refresh token for"`. -/
theorem claim_C5_no_caller_refresh_amended (tr : Transport) (fuel : Nat)
    (w : World)
    (h1 : callerIsUserCreds w.st = false)
    (h2 : callerIsClientCreds w.st = false) :
    sexec tr (fuel + 1) .refreshTok w =
      .err (.authError (.str "No caller to refresh token for"))
        { w with trace := w.trace ++ [Ev.refresh] }
    ∧ aexec tr (fuel + 1) .refreshTok w =
        .err (.authError (.str "No caller to refresh token for"))
          { w with trace := w.trace ++ [Ev.refresh] } := by
  constructor
  · simp [sexec, h1, h2]
  · simp [aexec, h1, h2]

/-- Witness for C5: the concrete neither-caller state. -/
theorem claim_C5_witness :
    sexec trAny 1 .refreshTok wNoCallerC =
      .err (.authError (.str "No caller to refresh token for"))
        { wNoCallerC with trace := [Ev.refresh] }
    ∧ aexec trAny 1 .refreshTok wNoCallerC =
        .err (.authError (.str "No caller to refresh token for"))
          { wNoCallerC with trace := [Ev.refresh] } :=
  claim_C5_no_caller_refresh_amended trAny 0 wNoCallerC rfl rfl

/-- Pythonic presence of an optional string attribute (truthiness):
present means not `None` and not the empty string. -/
lemma truthyStr_eq_true_iff (o : Option String) :
    truthyStr o = true ↔ ∃ s, o = some s ∧ s ≠ "" := by
  cases o with
  | none => simp [truthyStr]
  | some s =>
    simp only [truthyStr, Bool.not_eq_true', Option.some.injEq]
    constructor
    · intro h
      exact ⟨s, rfl, by simpa [← String.isEmpty_iff] using h⟩
    · rintro ⟨t, rfl, ht⟩
      simpa [← String.isEmpty_iff] using ht

/-- C6 counterexample: a `ClientCreds` built by the constructor with
identifier, redirect target and scopes all present but
`show_dialog=None` is *not* `is_oauth_ready`, so the claimed
"iff the three fields are present" fails. -/
theorem claim_C6_counterexample :
    ClientCreds.is_oauth_ready ccDialogNone = false
    ∧ truthyStr ccDialogNone.client_id = true
    ∧ truthyStr ccDialogNone.redirect_uri = true
    ∧ ccDialogNone.scopes ≠ [] := by
  refine ⟨rfl, rfl, rfl, by decide⟩

/-- C6 (amended): `is_oauth_ready` holds iff the client identifier, the
redirect target and the scopes are all present *and* the consent-dialog
flag is not `None` (the source conjoins `show_dialog is not None`). -/
theorem claim_C6_is_oauth_ready_amended (cc : ClientCreds) :
    cc.is_oauth_ready = true ↔
      (∃ s, cc.client_id = some s ∧ s ≠ "")
      ∧ (∃ s, cc.redirect_uri = some s ∧ s ≠ "")
      ∧ cc.scopes ≠ []
      ∧ cc.show_dialog ≠ none := by
  simp only [ClientCreds.is_oauth_ready, Bool.and_eq_true, truthyStr_eq_true_iff,
    Bool.not_eq_true', List.isEmpty_eq_false, ← List.isEmpty_iff,
    Option.isSome_iff_ne_none, and_assoc]

/-- C10: providing both an `access_token` and a `user_creds` model to
the client constructor raises `ValueError`; providing only an
`access_token` wraps it into a fresh `UserCreds` (all other fields at
their constructor defaults) which becomes the active caller. -/
theorem claim_C10_access_token_wiring (tok : String) (cc : ClientCreds)
    (uc : UserCreds) (now : Int) (mr : Nat) :
    initClient (some tok) cc (some uc) now mr =
      .error (.valueError "Either provide an access token or a user model, not both!")
    ∧ initClient (some tok) cc none now mr =
        .ok { user_creds := some (UserCreds.init (some tok) none none none)
              client_creds := cc
              caller := .userObj
              utcnow := now
              max_retries := mr } := by
  exact ⟨rfl, rfl⟩

/-- The backoff retry loop against a transport that always answers 429:
with `remaining` allowed tries (at least one, and covered by the fuel),
exactly `remaining` attempts are made and the final `_TooManyRequests`
is re-raised. -/
lemma aexec_backoff_always_429 (tr : Transport) (j : JsonBody)
    (htr : ∀ k, tr k = .http 429 j) :
    ∀ (remaining fuel : Nat) (w : World) (r : Request),
      1 ≤ remaining → remaining ≤ fuel →
      aexec tr (fuel + 1) (.backoffTry r remaining) w =
        .err (.tooManyRequests (msgGeneric j)) { w with sends := w.sends + remaining } := by
  intro remaining
  induction remaining with
  | zero => intro fuel w r h1 _; omega
  | succ m ihm =>
    intro fuel w r _ hle
    obtain ⟨f, rfl⟩ : ∃ f, fuel = f + 1 := ⟨fuel - 1, by omega⟩
    have hh : aexec tr (f + 1) (.handle r) w =
        .err (.tooManyRequests (msgGeneric j)) { w with sends := w.sends + 1 } := by
      simp [aexec, htr w.sends]
    match m with
    | 0 =>
      rw [aexec.eq_3, hh]
      simp [PyError.isBackoffRetryable]
    | Nat.succ m' =>
      have hrec := ihm f { w with sends := w.sends + 1 } r (by omega) (by omega)
      have h1 : ((PyError.tooManyRequests (msgGeneric j)).isBackoffRetryable &&
          decide (1 < m'.succ + 1)) = true := by
        simp [PyError.isBackoffRetryable]
      rw [aexec.eq_3, hh]
      simp only [h1, if_true, Nat.add_sub_cancel]
      rw [hrec]
      have harith : w.sends + 1 + (m' + 1) = w.sends + (m' + 1 + 1) := by omega
      simp only [harith]

/-- C7 (amended): against a transport answering 429 on every attempt,
the *asynchronous* dispatcher's backoff wrapper
(`_send_request_with_backoff`, `max_tries = max_retries = N ≥ 1`)
performs exactly `N` attempts — each counted in the send counter — and
then raises `_TooManyRequests`, which is an `ApiError` by subclassing
but a distinct, rate-limit kind (and not an `AuthError`).  The
*blocking* dispatcher has no rate-limit kind: a 429 that reaches
`Spotify._send_request` is classified by its generic non-2xx branch as
a plain `ApiError` after a single attempt.  The exponential sleep
between attempts and the wall-clock `max_time` bound are real-time
behaviour outside the model; for idempotent methods the blocking
client's session adapter (`urllib3.Retry`, an external library) retries
below this layer. -/
theorem claim_C7_backoff_exhaustion (tr : Transport) (j : JsonBody)
    (N fuel : Nat) (w : World) (r : Request)
    (hN : 1 ≤ N) (hmr : w.st.max_retries = N) (hfuel : N ≤ fuel)
    (htr : ∀ k, tr k = .http 429 j) :
    aexec tr (fuel + 1 + 1) (.sendWithBackoff r) w =
      .err (.tooManyRequests (msgGeneric j)) { w with sends := w.sends + N }
    ∧ (PyError.tooManyRequests (msgGeneric j)).isApiError = true
    ∧ (∀ m, PyError.tooManyRequests (msgGeneric j) ≠ .apiError m)
    ∧ (∀ m, PyError.tooManyRequests (msgGeneric j) ≠ .authError m)
    ∧ (PyError.tooManyRequests (msgGeneric j)).isRateLimited = true
    ∧ (∀ (w' : World) (r' : Request) (fuel' : Nat),
        sexec tr (fuel' + 1) (.sendReq r') w' =
          .err (.apiError (msgGeneric j)) { w' with sends := w'.sends + 1 })
    ∧ (PyError.apiError (msgGeneric j)).isRateLimited = false := by
  refine ⟨?_, rfl, fun m => by simp, fun m => by simp, rfl, ?_, rfl⟩
  · have := aexec_backoff_always_429 tr j htr N fuel w r hN hfuel
    simp only [aexec, hmr]
    exact this
  · intro w' r' fuel'
    simp [sexec, htr w'.sends]

/-- The 429 body used by the C7 witness. -/
def j429 : JsonBody := { errorMessage := some (some "API rate limit exceeded") }

/-- A transport answering 429 on every attempt. -/
def tr429 : Transport := fun _ => .http 429 j429

/-- Client state with `max_retries = 3` for the C7 witness. -/
def st429 : ClientState :=
  { user_creds := none, client_creds := clientCredsC,
    caller := .clientObj, utcnow := 0, max_retries := 3 }

/-- Initial world over `st429`. -/
def w429 : World := { st := st429, sends := 0 }

/-- A non-idempotent request: `POST` is not in the blocking session
adapter's retry whitelist (`["GET", "UPDATE", "DELETE"]`), so a 429
response to it reaches `Spotify._send_request` directly. -/
def reqPost : Request :=
  { method := "POST", url := "https://api.spotify.com/v1/me/player/next",
    headers := [("Authorization", "Bearer tok")] }

/-- C7 counterexample: on the blocking path the claim fails.  With
`max_retries = 3` and a transport answering 429 on every attempt, the
blocking dispatcher raises after a *single* attempt (not 3), and the
error is a plain `ApiError` with no rate-limit kind (the blocking
client never raises `_TooManyRequests`). -/
theorem claim_C7_counterexample :
    sexec tr429 1 (.sendReq reqPost) w429 =
      .err (.apiError (msgGeneric j429)) { w429 with sends := 1 }
    ∧ (PyError.apiError (msgGeneric j429)).isRateLimited = false
    ∧ w429.st.max_retries = 3 := by
  exact ⟨rfl, rfl, rfl⟩

/-- Witness for C7: with `max_retries = 3` the asynchronous dispatcher
makes exactly 3 sends and raises the rate-limit kind
`_TooManyRequests`, while the blocking dispatcher classifies the same
429 as a plain `ApiError` in one attempt. -/
theorem claim_C7_witness :
    aexec tr429 5 (.sendWithBackoff reqLoop) w429 =
      .err (.tooManyRequests (msgGeneric j429)) { w429 with sends := 3 }
    ∧ (PyError.tooManyRequests (msgGeneric j429)).isApiError = true
    ∧ (∀ m, PyError.tooManyRequests (msgGeneric j429) ≠ .apiError m)
    ∧ (PyError.tooManyRequests (msgGeneric j429)).isRateLimited = true
    ∧ sexec tr429 1 (.sendReq reqPost) w429 =
        .err (.apiError (msgGeneric j429)) { w429 with sends := 1 }
    ∧ (PyError.apiError (msgGeneric j429)).isRateLimited = false :=
  ⟨(claim_C7_backoff_exhaustion tr429 j429 3 3 w429 reqLoop (by norm_num) rfl
      (by norm_num) (fun k => rfl)).1,
   (claim_C7_backoff_exhaustion tr429 j429 3 3 w429 reqLoop (by norm_num) rfl
      (by norm_num) (fun k => rfl)).2.1,
   (claim_C7_backoff_exhaustion tr429 j429 3 3 w429 reqLoop (by norm_num) rfl
      (by norm_num) (fun k => rfl)).2.2.1,
   (claim_C7_backoff_exhaustion tr429 j429 3 3 w429 reqLoop (by norm_num) rfl
      (by norm_num) (fun k => rfl)).2.2.2.2.1,
   (claim_C7_backoff_exhaustion tr429 j429 3 3 w429 reqLoop (by norm_num) rfl
      (by norm_num) (fun k => rfl)).2.2.2.2.2.1 w429 reqPost 0,
   (claim_C7_backoff_exhaustion tr429 j429 3 3 w429 reqLoop (by norm_num) rfl
      (by norm_num) (fun k => rfl)).2.2.2.2.2.2⟩

/-! ## Fixtures and helpers for the batch (`gather`) claims -/

/-- A user credential with a refresh token whose access token is expired
(expiry 500, clock 1000). -/
def ucExpiredRT : UserCreds :=
  { access_token := some "old", refresh_token := some "rtok",
    expiry := some 500, scopes := [] }

/-- Client state whose active caller is the expired-but-refreshable user
credential. -/
def stExpired : ClientState :=
  { user_creds := some ucExpiredRT, client_creds := clientCredsC,
    caller := .userObj, utcnow := 1000, max_retries := 2 }

/-- The token-endpoint body the batch scenario's refresh receives: a
*new* access token with a future expiry. -/
def tokenJsonFresh : JsonBody :=
  { access_token := some "new", scope := some "s", expires_in := some 3600 }

/-- The user credential after the refresh merge. -/
def ucRefreshed : UserCreds :=
  { access_token := some "new", refresh_token := some "rtok",
    expiry := some 4600, scopes := ["s"] }

/-- The client state after the refresh. -/
def stRefreshed : ClientState := { stExpired with user_creds := some ucRefreshed }

/-- The batch scenario's transport: the first send (the token request)
is answered with the fresh token, every later send with a plain 200. -/
def trC8 : Transport := fun k =>
  if k == 0 then .http 200 tokenJsonFresh else .http 200 {}

/-- `_send_request_with_backoff` against a 200 response: one attempt,
returned as-is. -/
lemma aexec_send_200 (tr : Transport) (fuel : Nat) (w : World) (r : Request)
    (j : JsonBody) (h200 : tr w.sends = .http 200 j) :
    aexec tr (fuel + 1 + 1 + 1) (.sendWithBackoff r) w =
      .ok (.resp (.http 200 j)) { w with sends := w.sends + 1 } := by
  have hh : aexec tr (fuel + 1) (.handle r) w =
      .ok (.resp (.http 200 j)) { w with sends := w.sends + 1 } := by
    simp [aexec, h200]
  rw [aexec.eq_4, aexec.eq_3, hh]

/-- The batch fan-out against a transport that answers every send from
`k0` on with 200: one send per request, no refresh, no state change. -/
lemma aexec_sendReqsGather_all200 (tr : Transport) (j : JsonBody) (k0 : Nat)
    (hok : ∀ k, k0 ≤ k → tr k = .http 200 j) :
    ∀ (rs : List Request) (fuel : Nat) (w : World),
      rs.length + 3 ≤ fuel → k0 ≤ w.sends →
      aexec tr fuel (.sendReqsGather rs) w =
        .ok (.list (List.replicate rs.length (.http 200 j)))
          { w with sends := w.sends + rs.length } := by
  intro rs
  induction rs with
  | nil =>
    intro fuel w hfuel _
    obtain ⟨f, rfl⟩ : ∃ f, fuel = f + 1 := ⟨fuel - 1, by omega⟩
    rw [aexec.eq_6]
    simp
  | cons r rest ih =>
    intro fuel w hfuel hks
    simp only [List.length_cons] at hfuel ⊢
    obtain ⟨g, rfl⟩ : ∃ g, fuel = g + 1 + 1 + 1 + 1 := ⟨fuel - 4, by omega⟩
    have hsend := aexec_send_200 tr g w r j (hok w.sends hks)
    have hrec := ih (g + 1 + 1 + 1) { w with sends := w.sends + 1 }
      (by omega) (by simp only []; omega)
    have hrec2 : aexec tr (g + 3) (ACall.sendReqsGather rest)
        { w with sends := w.sends + 1 } =
        Res.ok (AVal.list (List.replicate rest.length (ScriptedResponse.http 200 j)))
          { w with sends := w.sends + 1 + rest.length } := hrec
    rw [aexec.eq_7, hsend]
    simp only [hrec, hrec2]
    simp [List.replicate_succ]
    omega

/-- In the batch scenario, `_refresh_token` succeeds on the first send
and installs the fresh user credential. -/
lemma c8_refresh (fuel : Nat) :
    aexec trC8 (fuel + 1 + 1 + 1 + 1 + 1 + 1) .refreshTok ⟨stExpired, 0, []⟩ =
      .ok .unit ⟨stRefreshed, 1, [Ev.refresh]⟩ := by
  have h0 : trC8 0 = .http 200 tokenJsonFresh := rfl
  have hcaller : callerIsUserCreds stExpired = true := rfl
  have hprep : prepRefreshUserToken stExpired = .ok rTokC := rfl
  have hjson : userJsonToObject 1000 (ScriptedResponse.http 200 tokenJsonFresh).jsonOf
      = .ok { access_token := some "new", refresh_token := none,
              expiry := some 4600, scopes := ["s"] } := by rfl
  have hmerge : updateUserCredsWith ucExpiredRT
      { access_token := some "new", refresh_token := none,
        expiry := some 4600, scopes := ["s"] } = ucRefreshed := by rfl
  simp only [aexec, hcaller, hprep, h0, hjson, hmerge, if_true]
  rfl

/-- After the refresh, `_send_authorized_requests(gather=True)` does not
refresh again (the fresh expiry lies in the future), attaches the new
bearer header, and fans out one send per request. -/
lemma c8_sendAuth (coros : List Request) (g : Nat) (t : List Ev)
    (hg : coros.length + 3 ≤ g) :
    aexec trC8 (g + 1) (.sendAuthReqs coros true) ⟨stRefreshed, 1, t⟩ =
      .ok (.list (List.replicate coros.length (.http 200 ({} : JsonBody))))
        ⟨stRefreshed, 1 + coros.length, t⟩ := by
  have hexp : callerAccessIsExpired stRefreshed = some false := rfl
  have hhdr : accessAuthorizationHeader stRefreshed =
      .ok [("Authorization", "Bearer new")] := rfl
  have hok : ∀ k, 1 ≤ k → trC8 k = .http 200 ({} : JsonBody) := by
    intro k hk
    have : (k == 0) = false := by simp; omega
    simp [trC8, this]
  have hbatch := aexec_sendReqsGather_all200 trC8 {} 1 hok
    (coros.map
      (fun r => { r with headers := dictUpdate r.headers [("Authorization", "Bearer new")] }))
    g ⟨stRefreshed, 1, t⟩
    (by simp only [List.length_map]; omega) (Nat.le_refl 1)
  rw [aexec.eq_8]
  simp only [hexp]
  norm_num
  simp only [hhdr, hbatch]
  simp [List.length_map]

/-- C8: dispatching a batch through `_gather` with `refresh_first=True`
while the active caller's access token is expired performs exactly one
refresh, and that refresh happens before any of the batch's requests is
materialized — for every batch size: the run's event trace is exactly
one `refresh` followed by the `materialize` events of all requests. -/
theorem claim_C8_gather_single_refresh (coros : List Request) (fuel : Nat)
    (hfuel : coros.length + 9 ≤ fuel) :
    ∃ (out : AVal) (w' : World),
      aexec trC8 fuel (.gatherReqs true coros) ⟨stExpired, 0, []⟩ = .ok out w'
      ∧ w'.trace = Ev.refresh :: (List.range coros.length).map Ev.materialize
      ∧ w'.trace.count Ev.refresh = 1 := by
  obtain ⟨g, rfl⟩ : ∃ g, fuel = g + 1 + 1 + 1 + 1 + 1 + 1 + 1 := ⟨fuel - 7, by omega⟩
  have hsa := c8_sendAuth coros (g + 1 + 1 + 1 + 1 + 1)
    (Ev.refresh :: (List.range coros.length).map Ev.materialize) (by omega)
  refine ⟨.jsonList ((List.replicate coros.length (.http 200 ({} : JsonBody))).map
      ScriptedResponse.jsonOf),
    ⟨stRefreshed, 1 + coros.length,
      Ev.refresh :: (List.range coros.length).map Ev.materialize⟩, ?_, rfl, ?_⟩
  · rw [aexec.eq_13]
    simp only [if_true, c8_refresh g]
    simp only [List.singleton_append, hsa]
  · simp [List.count_cons, List.count_eq_zero, List.mem_map]

/-- A bare batch request. -/
def reqA : Request :=
  { method := "GET", url := "https://api.spotify.com/v1/me/tracks", headers := [] }

/-- A second bare batch request. -/
def reqB : Request :=
  { method := "GET", url := "https://api.spotify.com/v1/me/albums", headers := [] }

/-- Witness for C8: a two-request batch with `refresh_first=True` and
the expired caller produces the trace `[refresh, materialize 0,
materialize 1]` — one refresh, before both materializations. -/
theorem claim_C8_witness :
    (aexec trC8 11 (.gatherReqs true [reqA, reqB]) ⟨stExpired, 0, []⟩).world.trace =
      [Ev.refresh, Ev.materialize 0, Ev.materialize 1]
    ∧ ((aexec trC8 11 (.gatherReqs true [reqA, reqB]) ⟨stExpired, 0, []⟩).world.trace.count
        Ev.refresh) = 1 := by
  obtain ⟨out, w', h1, h2, h3⟩ := claim_C8_gather_single_refresh [reqA, reqB] 11 (by norm_num)
  rw [h1]
  refine ⟨?_, ?_⟩
  · simp only [Res.world]
    rw [h2]
    rfl
  · simp only [Res.world]
    exact h3

/-! ## Helpers for the batch-ordering claim -/

/-- The slot array's length is invariant under depositing results. -/
lemma gatherFold_length (L : List α) (order : List Nat) (slots : List (Option α)) :
    (order.foldl (fun slots i => match L.get? i with
      | some v => slots.set i (some v)
      | none => slots) slots).length = slots.length := by
  induction order generalizing slots with
  | nil => rfl
  | cons i rest ih =>
    simp only [List.foldl_cons]
    cases h : L.get? i with
    | none => simp only [h, ih]
    | some v => simp only [h, ih, List.length_set]

/-- A slot whose task never completes in the order is untouched. -/
lemma gatherFold_get_notMem (L : List α) (order : List Nat) (slots : List (Option α))
    (j : Nat) (hj : j ∉ order) :
    (order.foldl (fun slots i => match L.get? i with
      | some v => slots.set i (some v)
      | none => slots) slots)[j]? = slots[j]? := by
  induction order generalizing slots with
  | nil => rfl
  | cons i rest ih =>
    simp only [List.mem_cons, not_or] at hj
    simp only [List.foldl_cons]
    rw [ih _ hj.2]
    cases h : L.get? i with
    | none => simp only [h]
    | some v =>
      simp only [h]
      exact List.getElem?_set_ne (fun he => hj.1 he.symm)

/-- A slot whose task completes somewhere in the order ends up holding
that task's own result, no matter when it completed (every completion of
task `j` writes the same value into slot `j`). -/
lemma gatherFold_get_mem (L : List α) (order : List Nat) (slots : List (Option α))
    (j : Nat) (v : α) (hv : L.get? j = some v) (hlen : slots.length = L.length)
    (hmem : j ∈ order) :
    (order.foldl (fun slots i => match L.get? i with
      | some w => slots.set i (some w)
      | none => slots) slots)[j]? = some (some v) := by
  induction order generalizing slots with
  | nil => simp at hmem
  | cons i rest ih =>
    simp only [List.foldl_cons]
    by_cases hjr : j ∈ rest
    · apply ih
      · cases h : L.get? i with
        | none => simpa only [h] using hlen
        | some w => simpa only [h, List.length_set] using hlen
      · exact hjr
    · have hji : j = i := by
        rcases List.mem_cons.mp hmem with h | h
        · exact h
        · exact absurd h hjr
      subst hji
      rw [gatherFold_get_notMem L rest _ j hjr]
      simp only [hv]
      have hlt : j < slots.length := by
        rw [hlen]
        exact List.get?_eq_some.mp hv |>.1
      simp [List.getElem?_set_self, hlt]

/-- When every task of the batch completes (in whatever order), the
collected slots are exactly the per-task results, positionally. -/
lemma gatherCollect_complete (L : List α) (order : List Nat)
    (hcover : ∀ j, j < L.length → j ∈ order) :
    gatherCollect L order = L.map some := by
  apply List.ext_getElem?
  intro j
  by_cases hj : j < L.length
  · have hv : L.get? j = some (L.get ⟨j, hj⟩) := List.get?_eq_get hj
    rw [gatherCollect, gatherFold_get_mem L order _ j _ hv (by simp) (hcover j hj)]
    simp [List.getElem?_map, List.getElem?_eq_getElem hj, List.get_eq_getElem]
  · have h1 : (gatherCollect L order).length = L.length := by
      rw [gatherCollect, gatherFold_length]
      simp
    rw [List.getElem?_eq_none (by rw [h1]; omega),
      List.getElem?_eq_none (by rw [List.length_map]; omega)]

/-- C9: for every batch and every completion order in which each task
finishes at least once, the collected results stand in submission
order — slot `j` holds the result of request `j`, regardless of when it
completed. -/
theorem claim_C9_batch_order (α : Type) (handler : Request → α)
    (reqs : List Request) (order : List Nat)
    (hcover : ∀ j, j < reqs.length → j ∈ order) :
    batchResults handler reqs order = reqs.map (fun r => some (handler r)) := by
  rw [batchResults, gatherCollect_complete]
  · simp
  · intro j hj
    exact hcover j (by simpa using hj)

/-- A third bare batch request. -/
def reqC : Request :=
  { method := "GET", url := "https://api.spotify.com/v1/me/playlists", headers := [] }

/-- Witness for C9: three requests whose completion order is reversed
(`[2, 1, 0]`) still collect in submission order. -/
theorem claim_C9_witness :
    batchResults (fun r => r.url) [reqA, reqB, reqC] [2, 1, 0] =
      [some reqA.url, some reqB.url, some reqC.url] := by
  have h := claim_C9_batch_order String (fun r => r.url) [reqA, reqB, reqC] [2, 1, 0]
    (by intro j hj; simp only [List.length_cons, List.length_nil] at hj;
        interval_cases j <;> decide)
  simpa using h

end Pyfy
